import Mathlib

/-!
Shallow embedding of the chisel tunnel core (server session coordinator,
channel dispatcher, proxy run loop) for checking the specification claims.

Sources embedded:
- `server/server.go` : `Server.authUser`, `Server.handleWS`
- `share/tunnel_in_proxy.go` : `Proxy.Run`, `Proxy.runStdio`, `Proxy.pipeRemote`
- the unnamed dispatcher file : `Tunnel.handleSSHChannel`, `Tunnel.handleSSHChannels`,
  `Tunnel.handleTCP`

External effects (network accept/dial results, decode results, pipe byte counts)
are passed in as explicit environment values; Go maps are modelled as association
lists with overwrite-on-insert semantics.
-/

namespace Chisel

/-- Association-list lookup, modelling a read of a Go `map[string]V`. -/
def mapLookup {α : Type} (m : List (String × α)) (k : String) : Option α :=
  (m.find? (fun p => p.1 == k)).map (fun p => p.2)

/-- Association-list insert with overwrite, modelling `m[k] = v` on a Go map. -/
def mapInsert {α : Type} (m : List (String × α)) (k : String) (v : α) :
    List (String × α) :=
  (k, v) :: m.filter (fun p => p.1 != k)

/-- Association-list removal, modelling `delete(m, k)` on a Go map. -/
def mapErase {α : Type} (m : List (String × α)) (k : String) : List (String × α) :=
  m.filter (fun p => p.1 != k)

/-- `chshare.User`: name, password, allowed address patterns (`server/server.go`
uses `u.Pass` and `u.HasAccess`). -/
structure User where
  name : String
  pass : String
  addrs : List String
deriving DecidableEq

/-- Modelled from the spec: `User.HasAccess` (its implementation is not under
`src/`): the address is matched by at least one of the user's allowed patterns,
for a given pattern matcher `pmatch`. -/
def hasAccess (pmatch : String → String → Bool) (u : User) (addr : String) : Bool :=
  u.addrs.any (fun p => pmatch p addr)

/-- `chshare.Remote` (a ForwardingRule) as used by the embedded functions. -/
structure Remote where
  localHost : String
  localPort : String
  remoteHost : String
  remotePort : String
  localProto : String
  stdio : Bool
deriving DecidableEq

/-- The remote address string built by `handleWS`: `r.RemoteHost + ":" + r.RemotePort`. -/
def remoteAddr (r : Remote) : String := r.remoteHost ++ ":" ++ r.remotePort

/-- `chshare.Config` (a RuleSet): the ordered list of remotes. -/
structure Config where
  remotes : List Remote
deriving DecidableEq

/-- The first out-of-band request of a session. `decoded` is the result of
`chshare.DecodeConfig` on its payload (the decoder itself is not under `src/`;
modelled from the spec: the payload is a serialized RuleSet, so decoding either
yields a `Config` or fails). -/
structure Request where
  typ : String
  decoded : Option Config
deriving DecidableEq

/-- A reply sent on the out-of-band config request: `r.Reply(ok, payload)`. -/
inductive Reply where
  | accept (msg : String)
  | reject (msg : String)
deriving DecidableEq

/-- Observable outcome of `Server.handleWS` after the transport handshake:
the replies sent on the config request, whether `sshConn.Close()` was called
by the handler, whether channel dispatching (`chshare.ConnectStreams`) was
started, and the session map after the handler returns.
The `Logger` prefix added by `s.Errorf` is omitted from messages (the logger
implementation is not under `src/`); messages carry the format-string body. -/
structure WSResult where
  replies : List Reply
  closed : Bool
  dispatched : Bool
  sessionsAfter : List (String × User)
deriving DecidableEq

/-- The rejection message `s.Errorf("access to \x27%s\x27 denied", addr)`. -/
def accessDeniedMsg (addr : String) : String :=
  "access to \x27" ++ addr ++ "\x27 denied"

/-- `Server.handleWS` (`server/server.go`), after a successful transport
handshake. `users` is `s.Users`, `sessions` is `s.sessions`, `sid` is the
session id, `req` the first out-of-band request. The Go loop over `c.Remotes`
that stops at the first rule failing `user.HasAccess` is rendered as a
`List.find?` for the first rule whose remote address is denied. -/
def handleWS (pmatch : String → String → Bool)
    (users sessions : List (String × User)) (sid : String) (req : Request) :
    WSResult :=
  -- load user: `if len(s.Users) > 0 { user = s.sessions[sid] }`
  let user : Option User :=
    if 0 < users.length then mapLookup sessions sid else none
  -- verify configuration
  if req.typ ≠ "config" then
    { replies := [Reply.reject "expecting config request"], closed := true,
      dispatched := false, sessionsAfter := sessions }
  else
    match req.decoded with
    | none =>
      { replies := [Reply.reject "invalid config"], closed := true,
        dispatched := false, sessionsAfter := sessions }
    | some c =>
      -- if user is provided, ensure they have access to the desired remote
      let denied : Option Remote :=
        match user with
        | some u => c.remotes.find? (fun r => !(hasAccess pmatch u (remoteAddr r)))
        | none => none
      match denied with
      | some r =>
        { replies := [Reply.reject (accessDeniedMsg (remoteAddr r))], closed := true,
          dispatched := false, sessionsAfter := sessions }
      | none =>
        -- success path: discard further requests, start ConnectStreams,
        -- wait for the connection, then clean up the session record
        { replies := [], closed := false, dispatched := true,
          sessionsAfter :=
            match user with
            | some _ => mapErase sessions sid
            | none => sessions }

/-- `Server.authUser` (`server/server.go`): the password callback. Returns the
session map after the call and the error (`some msg` models a non-nil error,
i.e. a rejected authentication). -/
def authUser (users sessions : List (String × User))
    (identity sid pass : String) : List (String × User) × Option String :=
  -- no auth
  if users.length = 0 then (sessions, none)
  else
    -- authenticate user
    match mapLookup users identity with
    | none => (sessions, some "Invalid auth")
    | some u =>
      if u.pass ≠ pass then (sessions, some "Invalid auth")
      else
        -- insert session
        (mapInsert sessions sid u, none)

/-- The outcome of `Proxy.Run`: either a normal return carrying the Go error
value (`none` models a nil error), or a `panic`. -/
inductive RunOutcome where
  | ret (err : Option String)
  | panicked (msg : String)
deriving DecidableEq

/-- `Proxy` (`share/tunnel_in_proxy.go`), reduced to the state `Run` consults:
the forwarding rule. -/
structure Proxy where
  remote : Remote
deriving DecidableEq

/-- `Proxy.runStdio` (`share/tunnel_in_proxy.go`): pipe stdio through a channel,
then poll `ctx.Done()`; repeat until the cancellation signal is ready. The
context is modelled by `cancelledAt`, the number of polls that see a
not-yet-cancelled context; the function returns the number of pipe attempts
performed before it observes cancellation and returns. -/
def runStdio : Nat → Nat
  | 0 => 1
  | n + 1 => 1 + runStdio n

/-- `Proxy.Run` (`share/tunnel_in_proxy.go`). `tcpResult`/`udpResult` are the
environment-supplied return values of `p.runTCP(ctx)` and `p.udp.run(ctx)`
(their accept/forward loops interact with the network, which the claims about
`Run` do not depend on). Note the Go source does not `return` after
`p.runStdio(ctx)`, so the stdio branch falls through to the final `panic`. -/
def Proxy.Run (p : Proxy) (cancelledAt : Nat)
    (tcpResult udpResult : Option String) : RunOutcome :=
  if p.remote.stdio then
    -- p.runStdio(ctx) runs to completion, then control reaches the panic below
    let _ := runStdio cancelledAt
    RunOutcome.panicked "should not get here"
  else if p.remote.localProto = "tcp" then
    RunOutcome.ret tcpResult
  else if p.remote.localProto = "udp" then
    RunOutcome.ret udpResult
  else
    RunOutcome.panicked "should not get here"

/-- Environment of one `Proxy.pipeRemote` call: the current transport
connection returned by `p.ssh()` (`none` models a nil `ssh.Conn`), and, when
present, the result of `sshConn.OpenChannel` on it. -/
structure SSHConnEnv where
  openChannelErr : Option String
deriving DecidableEq

/-- Observable outcome of `Proxy.pipeRemote` (`share/tunnel_in_proxy.go`):
whether the local connection was closed (the deferred `src.Close()`), whether
`OpenChannel` was called, whether the pipe stage was reached, and the
connection counter after the call. -/
structure PipeRemoteResult where
  srcClosed : Bool
  channelOpenAttempted : Bool
  piped : Bool
  countAfter : Nat
deriving DecidableEq

/-- `Proxy.pipeRemote` (`share/tunnel_in_proxy.go`). `count` is `p.count`
before the call; `sshConn` is the value of `p.ssh()`. -/
def pipeRemote (count : Nat) (sshConn : Option SSHConnEnv) : PipeRemoteResult :=
  -- defer src.Close(); p.count++
  let count := count + 1
  match sshConn with
  | none =>
    -- "No remote connection": return, running only the deferred close
    { srcClosed := true, channelOpenAttempted := false, piped := false,
      countAfter := count }
  | some c =>
    match c.openChannelErr with
    | some _ =>
      -- "Stream error": OpenChannel failed, return before piping
      { srcClosed := true, channelOpenAttempted := true, piped := false,
        countAfter := count }
    | none =>
      { srcClosed := true, channelOpenAttempted := true, piped := true,
        countAfter := count }

/-- Modelled from the spec: the ConnectionStats counters (`t.connStats`; the
implementation is not under `src/`): a process-wide `open` count of live
connections and a `total` count of connections ever opened. -/
structure ConnStats where
  openCount : Nat
  total : Nat
deriving DecidableEq

/-- Modelled from the spec: `connStats.New()` increments the total count (its
return value is used only as a connection id for the log fork). -/
def ConnStats.New (s : ConnStats) : ConnStats :=
  { s with total := s.total + 1 }

/-- Modelled from the spec: `connStats.Open()` increments the open count. -/
def ConnStats.Open (s : ConnStats) : ConnStats :=
  { s with openCount := s.openCount + 1 }

/-- Modelled from the spec: `connStats.Close()` decrements the open count. -/
def ConnStats.Close (s : ConnStats) : ConnStats :=
  { s with openCount := s.openCount - 1 }

/-- `Tunnel`, reduced to the state the dispatcher consults: whether a SOCKS
server is configured (`t.socksServer != nil`). -/
structure Tunnel where
  socksConfigured : Bool
deriving DecidableEq

/-- An inbound `ssh.NewChannel`: its extra data is the purpose tag. -/
structure Channel where
  extraData : String
deriving DecidableEq

/-- `ssh.RejectionReason` values used by the dispatcher. -/
inductive RejectReason where
  | prohibited
deriving DecidableEq

/-- Environment of one `handleSSHChannel` call: whether `ch.Accept()` succeeds,
and the outcomes of the protocol handlers (`t.handleSocks`, `t.handleUDP`, and
`net.Dial` inside `t.handleTCP`); `none` models a nil error. -/
structure ChanEnv where
  acceptOk : Bool
  socksResult : Option String
  udpResult : Option String
  dialErr : Option String
deriving DecidableEq

/-- `strings.HasSuffix(err.Error(), "EOF")` as used by `handleSSHChannel`:
the character sequence `EOF` is a suffix of the error text. -/
def hasSuffixEOF (e : String) : Bool := "EOF".data.isSuffixOf e.data

/-- Observable outcome of `Tunnel.handleSSHChannel` on one inbound channel. -/
structure ChanResult where
  rejected : Option (RejectReason × String)
  accepted : Bool
  streamClosed : Bool
  dialTarget : Option String
  handlerErr : Option String
  statsAtHandler : Option ConnStats
  closeDecrements : Nat
  errorLogged : Bool
  statsAfter : ConnStats
deriving DecidableEq

/-- `Tunnel.handleTCP` (unnamed dispatcher file): dial TCP to `remote`; on dial
failure return the error, otherwise pipe and return nil. Returns the dial
target actually used together with the handler error. -/
def Tunnel.handleTCP (env : ChanEnv) (remote : String) :
    Option String × Option String :=
  match env.dialErr with
  | some e => (some remote, some e)
  | none => (some remote, none)

/-- `Tunnel.handleSSHChannel` (unnamed dispatcher file). `stats` is
`t.connStats` before the call. `errorLogged` records whether the closing debug
line includes the handler error, which the source does only when
`err != nil && !strings.HasSuffix(err.Error(), "EOF")`. -/
def Tunnel.handleSSHChannel (t : Tunnel) (env : ChanEnv) (ch : Channel)
    (stats : ConnStats) : ChanResult :=
  let remote := ch.extraData
  let udp := remote == "udp"
  let socks := remote == "socks"
  if socks && !t.socksConfigured then
    -- "Denied socks request, please enable socks"
    { rejected := some (RejectReason.prohibited, "SOCKS5 is not enabled"),
      accepted := false, streamClosed := false, dialTarget := none,
      handlerErr := none, statsAtHandler := none, closeDecrements := 0,
      errorLogged := false, statsAfter := stats }
  else if !env.acceptOk then
    -- "Failed to accept stream"
    { rejected := none, accepted := false, streamClosed := false,
      dialTarget := none, handlerErr := none, statsAtHandler := none,
      closeDecrements := 0, errorLogged := false, statsAfter := stats }
  else
    -- defer stream.Close(); go ssh.DiscardRequests(reqs)
    let stats := stats.New
    let stats := stats.Open
    let atHandler := stats
    let handled : Option String × Option String :=
      if socks then (none, env.socksResult)
      else if udp then (none, env.udpResult)
      else Tunnel.handleTCP env remote
    let stats := stats.Close
    let err := handled.2
    let logged :=
      match err with
      | some e => !hasSuffixEOF e
      | none => false
    { rejected := none, accepted := true, streamClosed := true,
      dialTarget := handled.1, handlerErr := err,
      statsAtHandler := some atHandler, closeDecrements := 1,
      errorLogged := logged, statsAfter := stats }

/-- `Tunnel.handleSSHChannels` (unnamed dispatcher file): dispatch every
inbound channel. The source spawns one task per channel; this sequential fold
models one interleaving in which each channel is handled to completion in
arrival order, each with its own environment. -/
def Tunnel.handleSSHChannels (t : Tunnel) :
    List (ChanEnv × Channel) → ConnStats → List ChanResult × ConnStats
  | [], stats => ([], stats)
  | (env, ch) :: rest, stats =>
    let r := t.handleSSHChannel env ch stats
    let (rs, statsEnd) := t.handleSSHChannels rest r.statsAfter
    (r :: rs, statsEnd)

/-- One sessions-map-affecting server operation: a password-callback run
(`authUser`) or a full websocket session (`handleWS`). -/
inductive ServerOp where
  | auth (identity sid pass : String)
  | ws (sid : String) (req : Request)
deriving DecidableEq

/-- The effect of one server operation on `s.sessions`. -/
def applyOp (pmatch : String → String → Bool)
    (users sessions : List (String × User)) : ServerOp → List (String × User)
  | ServerOp.auth identity sid pass => (authUser users sessions identity sid pass).1
  | ServerOp.ws sid req => (handleWS pmatch users sessions sid req).sessionsAfter

/-- The sessions map after a sequence of server operations. -/
def runOps (pmatch : String → String → Bool) (users : List (String × User))
    (sessions : List (String × User)) : List ServerOp → List (String × User)
  | [] => sessions
  | op :: ops => runOps pmatch users (applyOp pmatch users sessions op) ops

/-! ## Helper lemmas -/

theorem find?_append_first {α : Type} (p : α → Bool) (l1 : List α) (a : α)
    (l2 : List α) (h1 : ∀ x ∈ l1, p x = false) (ha : p a = true) :
    (l1 ++ a :: l2).find? p = some a := by
  induction l1 with
  | nil => simpa using List.find?_cons_of_pos l2 ha
  | cons x xs ih =>
    have hx : p x = false := h1 x (by simp)
    rw [List.cons_append, List.find?_cons_of_neg _ (by simp [hx])]
    exact ih (fun y hy => h1 y (by simp [hy]))

/-- Evaluation of `handleWS` on a well-typed, decodable config request when the
session is associated with user `u`. -/
theorem handleWS_user_eq (pmatch : String → String → Bool)
    (users sessions : List (String × User)) (sid : String) (c : Config)
    (u : User) (hlen : 0 < users.length)
    (hlk : mapLookup sessions sid = some u) :
    handleWS pmatch users sessions sid ⟨"config", some c⟩ =
      match c.remotes.find? (fun r => !(hasAccess pmatch u (remoteAddr r))) with
      | some r =>
        { replies := [Reply.reject (accessDeniedMsg (remoteAddr r))],
          closed := true, dispatched := false, sessionsAfter := sessions }
      | none =>
        { replies := [], closed := false, dispatched := true,
          sessionsAfter := mapErase sessions sid } := by
  unfold handleWS
  simp [hlen, hlk]

/-- Evaluation of `handleWS` on a well-typed, decodable config request when no
user is associated with the session. -/
theorem handleWS_anon_eq (pmatch : String → String → Bool)
    (users sessions : List (String × User)) (sid : String) (c : Config)
    (hanon : (if 0 < users.length then mapLookup sessions sid else none) =
      (none : Option User)) :
    handleWS pmatch users sessions sid ⟨"config", some c⟩ =
      { replies := [], closed := false, dispatched := true,
        sessionsAfter := sessions } := by
  unfold handleWS
  simp [hanon]

/-- Evaluation of `handleWS` when no user table is configured: the session map
is neither consulted nor changed; the result is determined by the request. -/
theorem handleWS_no_users (pmatch : String → String → Bool)
    (sessions : List (String × User)) (sid : String) (req : Request) :
    handleWS pmatch [] sessions sid req =
      if req.typ ≠ "config" then
        { replies := [Reply.reject "expecting config request"], closed := true,
          dispatched := false, sessionsAfter := sessions }
      else
        match req.decoded with
        | none =>
          { replies := [Reply.reject "invalid config"], closed := true,
            dispatched := false, sessionsAfter := sessions }
        | some _ =>
          { replies := [], closed := false, dispatched := true,
            sessionsAfter := sessions } := by
  unfold handleWS
  simp

theorem mapLookup_mapInsert_self {α : Type} (m : List (String × α)) (k : String)
    (v : α) : mapLookup (mapInsert m k v) k = some v := by
  simp [mapLookup, mapInsert]

/-! ## Theorems for the claims -/

/-- C1: for a session associated with user `u`, negotiation of a well-typed,
decodable config request succeeds (dispatching starts) iff every rule's remote
address `RemoteHost:RemotePort` passes the user's allow-list check; when the
first failing rule is `r`, the single reply is a rejection whose message
contains `remoteAddr r` verbatim and the session is closed. For a session with
no associated user, negotiation always succeeds. -/
theorem C1_negotiation_iff_allowlist (pmatch : String → String → Bool)
    (users sessions : List (String × User)) (sid : String) (c : Config) :
    (∀ u : User, 0 < users.length → mapLookup sessions sid = some u →
      (((handleWS pmatch users sessions sid ⟨"config", some c⟩).dispatched = true) ↔
        ∀ r ∈ c.remotes, hasAccess pmatch u (remoteAddr r) = true) ∧
      ∀ l1 r l2, c.remotes = l1 ++ r :: l2 →
        (∀ x ∈ l1, hasAccess pmatch u (remoteAddr x) = true) →
        hasAccess pmatch u (remoteAddr r) = false →
        (handleWS pmatch users sessions sid ⟨"config", some c⟩).replies =
          [Reply.reject (accessDeniedMsg (remoteAddr r))] ∧
        (handleWS pmatch users sessions sid ⟨"config", some c⟩).closed = true ∧
        ∃ pre post, accessDeniedMsg (remoteAddr r) = pre ++ remoteAddr r ++ post) ∧
    ((if 0 < users.length then mapLookup sessions sid else none) =
        (none : Option User) →
      (handleWS pmatch users sessions sid ⟨"config", some c⟩).dispatched = true ∧
      (handleWS pmatch users sessions sid ⟨"config", some c⟩).closed = false) := by
  constructor
  · intro u hlen hlk
    rw [handleWS_user_eq pmatch users sessions sid c u hlen hlk]
    constructor
    · cases hf : c.remotes.find? (fun r => !(hasAccess pmatch u (remoteAddr r))) with
      | none =>
        simp only [hf]
        constructor
        · intro _ r hr
          have := List.find?_eq_none.mp hf r hr
          simpa using this
        · intro _; trivial
      | some r =>
        simp only [hf]
        constructor
        · intro h; cases h
        · intro hall
          have hmem := List.mem_of_find?_eq_some hf
          have hp := List.find?_some hf
          have := hall r hmem
          rw [this] at hp
          cases hp
    · intro l1 r l2 hsplit hall hdenied
      have hfind : c.remotes.find? (fun r => !(hasAccess pmatch u (remoteAddr r))) =
          some r := by
        rw [hsplit]
        apply find?_append_first
        · intro x hx
          simp [hall x hx]
        · simp [hdenied]
      simp only [hfind]
      exact ⟨trivial, trivial, "access to \x27", "\x27 denied", rfl⟩
  · intro hanon
    rw [handleWS_anon_eq pmatch users sessions sid c hanon]
    exact ⟨rfl, rfl⟩

/-- Witness for C1 at the spec's concrete scenario: user bob with allow-list
`[example.com:80]` negotiating rules for `example.com:80` and `internal:22` is
rejected citing `internal:22`. -/
theorem C1_witness :
    (handleWS (fun p a => p == a)
        [("bob", ⟨"bob", "pw", ["example.com:80"]⟩)]
        [("s", ⟨"bob", "pw", ["example.com:80"]⟩)] "s"
        ⟨"config", some ⟨[⟨"", "", "example.com", "80", "tcp", false⟩,
                          ⟨"", "", "internal", "22", "tcp", false⟩]⟩⟩).replies =
      [Reply.reject (accessDeniedMsg "internal:22")] ∧
    (handleWS (fun p a => p == a)
        [("bob", ⟨"bob", "pw", ["example.com:80"]⟩)]
        [("s", ⟨"bob", "pw", ["example.com:80"]⟩)] "s"
        ⟨"config", some ⟨[⟨"", "", "example.com", "80", "tcp", false⟩,
                          ⟨"", "", "internal", "22", "tcp", false⟩]⟩⟩).closed = true := by
  have h := ((C1_negotiation_iff_allowlist (fun p a => p == a)
      [("bob", ⟨"bob", "pw", ["example.com:80"]⟩)]
      [("s", ⟨"bob", "pw", ["example.com:80"]⟩)] "s"
      ⟨[⟨"", "", "example.com", "80", "tcp", false⟩,
        ⟨"", "", "internal", "22", "tcp", false⟩]⟩).1
      ⟨"bob", "pw", ["example.com:80"]⟩ (by decide) (by decide)).2
      [⟨"", "", "example.com", "80", "tcp", false⟩]
      ⟨"", "", "internal", "22", "tcp", false⟩ [] rfl (by decide) (by decide)
  exact ⟨h.1, h.2.1⟩

/-- C2 (code bug): `handleWS` never sends an accept reply on the config
request. In particular, whenever the config request passes the type check,
decodes, and passes the authorization check (so dispatching starts), the list
of replies sent on the request is empty: the coordinator enters the active
state without replying, contrary to the specified accept reply. -/
theorem C2_no_accept_reply (pmatch : String → String → Bool)
    (users sessions : List (String × User)) (sid : String) (req : Request) :
    (∀ msg, Reply.accept msg ∉ (handleWS pmatch users sessions sid req).replies) ∧
    ((handleWS pmatch users sessions sid req).dispatched = true →
      (handleWS pmatch users sessions sid req).replies = []) := by
  unfold handleWS
  dsimp only
  split
  · simp
  · split
    · simp
    · split
      · simp
      · simp

/-- Witness for C2: a concrete fully successful negotiation (anonymous mode,
well-typed decodable config) dispatches with an empty reply list. -/
theorem C2_witness :
    (handleWS (fun p a => p == a) [] [] "s"
      ⟨"config", some ⟨[⟨"127.0.0.1", "9000", "example", "80", "tcp", false⟩]⟩⟩).dispatched
      = true ∧
    (handleWS (fun p a => p == a) [] [] "s"
      ⟨"config", some ⟨[⟨"127.0.0.1", "9000", "example", "80", "tcp", false⟩]⟩⟩).replies
      = [] :=
  ⟨by decide,
   (C2_no_accept_reply (fun p a => p == a) [] [] "s"
      ⟨"config", some ⟨[⟨"127.0.0.1", "9000", "example", "80", "tcp", false⟩]⟩⟩).2
      (by decide)⟩

/-- C3: `authUser` allows every connection when no user table is configured;
otherwise it errors exactly when the identity is absent or the password
differs, and on success the sessionID-to-user record is in the session store
when the call returns. -/
theorem C3_authenticate (users sessions : List (String × User))
    (identity sid pass : String) :
    (users = [] → authUser users sessions identity sid pass = (sessions, none)) ∧
    (users ≠ [] →
      (((authUser users sessions identity sid pass).2 ≠ none) ↔
        (mapLookup users identity = none ∨
         ∃ u, mapLookup users identity = some u ∧ u.pass ≠ pass))) ∧
    (∀ u : User, mapLookup users identity = some u → u.pass = pass →
      (authUser users sessions identity sid pass).2 = none ∧
      mapLookup (authUser users sessions identity sid pass).1 sid = some u) := by
  refine ⟨?_, ?_, ?_⟩
  · intro h
    subst h
    rfl
  · intro hne
    have hlen : ¬ users.length = 0 := by
      simpa [List.length_eq_zero] using hne
    unfold authUser
    rw [if_neg hlen]
    cases hl : mapLookup users identity with
    | none => simp
    | some u =>
      dsimp only
      by_cases hp : u.pass = pass
      · rw [if_neg (by simp [hp])]
        simp [hp]
      · rw [if_pos hp]
        simp [hp]
  · intro u hl hp
    cases users with
    | nil => simp [mapLookup] at hl
    | cons x xs =>
      unfold authUser
      rw [if_neg (by simp), hl]
      dsimp only
      rw [if_neg (by simp [hp])]
      exact ⟨rfl, mapLookup_mapInsert_self sessions sid u⟩

/-- Witness for C3: user bob authenticating with the right password is allowed
and the session record is stored. -/
theorem C3_witness :
    (authUser [("bob", ⟨"bob", "pw", []⟩)] [] "bob" "s" "pw").2 = none ∧
    mapLookup (authUser [("bob", ⟨"bob", "pw", []⟩)] [] "bob" "s" "pw").1 "s" =
      some ⟨"bob", "pw", []⟩ :=
  (C3_authenticate [("bob", ⟨"bob", "pw", []⟩)] [] "bob" "s" "pw").2.2
    ⟨"bob", "pw", []⟩ (by decide) (by decide)

/-- C4: a first request that is not of type `config`, or whose payload fails to
decode, draws a single rejection reply, the session is closed, and channel
dispatching never starts. -/
theorem C4_bad_config_rejected (pmatch : String → String → Bool)
    (users sessions : List (String × User)) (sid : String) (req : Request)
    (h : req.typ ≠ "config" ∨ req.decoded = none) :
    (∃ msg, (handleWS pmatch users sessions sid req).replies =
      [Reply.reject msg]) ∧
    (handleWS pmatch users sessions sid req).closed = true ∧
    (handleWS pmatch users sessions sid req).dispatched = false := by
  unfold handleWS
  rcases h with h | h
  · rw [if_pos h]
    exact ⟨⟨"expecting config request", rfl⟩, rfl, rfl⟩
  · by_cases ht : req.typ ≠ "config"
    · rw [if_pos ht]
      exact ⟨⟨"expecting config request", rfl⟩, rfl, rfl⟩
    · rw [if_neg ht, h]
      exact ⟨⟨"invalid config", rfl⟩, rfl, rfl⟩

/-- Witness for C4: a request of type `ping` is rejected and never dispatched. -/
theorem C4_witness :
    (∃ msg, (handleWS (fun p a => p == a) [] [] "s" ⟨"ping", none⟩).replies =
      [Reply.reject msg]) ∧
    (handleWS (fun p a => p == a) [] [] "s" ⟨"ping", none⟩).closed = true ∧
    (handleWS (fun p a => p == a) [] [] "s" ⟨"ping", none⟩).dispatched = false :=
  C4_bad_config_rejected (fun p a => p == a) [] [] "s" ⟨"ping", none⟩
    (Or.inl (by decide))

/-- C5 (code bug): for a stdio rule, `Proxy.Run` evaluates the panic branch
once the stdio loop observes cancellation and returns — the source lacks a
`return` after `p.runStdio(ctx)`, so control falls through to
`panic("should not get here")`; tcp and udp rules return normally. Evaluated at
concrete inputs: a stdio rule cancelled immediately and after two retries, and
tcp/udp rules. -/
theorem C5_stdio_run_panics :
    Proxy.Run ⟨⟨"", "", "", "", "stdio", true⟩⟩ 0 none none =
      RunOutcome.panicked "should not get here" ∧
    Proxy.Run ⟨⟨"", "", "", "", "stdio", true⟩⟩ 2 none none =
      RunOutcome.panicked "should not get here" ∧
    Proxy.Run ⟨⟨"127.0.0.1", "9000", "example", "80", "tcp", false⟩⟩ 0 none none =
      RunOutcome.ret none ∧
    Proxy.Run ⟨⟨"127.0.0.1", "9000", "example", "53", "udp", false⟩⟩ 0 none none =
      RunOutcome.ret none := by
  refine ⟨rfl, rfl, by decide, by decide⟩

/-- C6: a `socks` channel arriving at a dispatcher with no SOCKS server is
rejected with the prohibited reason and message "SOCKS5 is not enabled", never
accepted, the counters are untouched, and the dispatcher goes on to serve the
remaining channels exactly as it would have without this channel. -/
theorem C6_socks_rejected (t : Tunnel) (env : ChanEnv) (ch : Channel)
    (stats : ConnStats) (rest : List (ChanEnv × Channel))
    (hsocks : ch.extraData = "socks")
    (hno : t.socksConfigured = false) :
    (Tunnel.handleSSHChannel t env ch stats).rejected =
      some (RejectReason.prohibited, "SOCKS5 is not enabled") ∧
    (Tunnel.handleSSHChannel t env ch stats).accepted = false ∧
    (Tunnel.handleSSHChannel t env ch stats).statsAfter = stats ∧
    Tunnel.handleSSHChannels t ((env, ch) :: rest) stats =
      ((Tunnel.handleSSHChannel t env ch stats) ::
        (Tunnel.handleSSHChannels t rest stats).1,
       (Tunnel.handleSSHChannels t rest stats).2) := by
  have hres : Tunnel.handleSSHChannel t env ch stats =
      { rejected := some (RejectReason.prohibited, "SOCKS5 is not enabled"),
        accepted := false, streamClosed := false, dialTarget := none,
        handlerErr := none, statsAtHandler := none, closeDecrements := 0,
        errorLogged := false, statsAfter := stats } := by
    unfold Tunnel.handleSSHChannel
    rw [if_pos (by simp [hsocks, hno])]
  refine ⟨by rw [hres], by rw [hres], by rw [hres], ?_⟩
  show (Tunnel.handleSSHChannel t env ch stats ::
      (Tunnel.handleSSHChannels t rest
        (Tunnel.handleSSHChannel t env ch stats).statsAfter).1,
    (Tunnel.handleSSHChannels t rest
        (Tunnel.handleSSHChannel t env ch stats).statsAfter).2) = _
  rw [hres]

/-- Witness for C6 at a concrete channel list: the socks channel is rejected
and a later tcp channel is still handled. -/
theorem C6_witness :
    (Tunnel.handleSSHChannel ⟨false⟩ ⟨true, none, none, none⟩ ⟨"socks"⟩
      ⟨0, 0⟩).rejected =
      some (RejectReason.prohibited, "SOCKS5 is not enabled") ∧
    (Tunnel.handleSSHChannel ⟨false⟩ ⟨true, none, none, none⟩ ⟨"socks"⟩
      ⟨0, 0⟩).accepted = false ∧
    (Tunnel.handleSSHChannel ⟨false⟩ ⟨true, none, none, none⟩ ⟨"socks"⟩
      ⟨0, 0⟩).statsAfter = ⟨0, 0⟩ ∧
    Tunnel.handleSSHChannels ⟨false⟩
        [(⟨true, none, none, none⟩, ⟨"socks"⟩),
         (⟨true, none, none, none⟩, ⟨"example.com:80"⟩)] ⟨0, 0⟩ =
      ((Tunnel.handleSSHChannel ⟨false⟩ ⟨true, none, none, none⟩ ⟨"socks"⟩ ⟨0, 0⟩) ::
        (Tunnel.handleSSHChannels ⟨false⟩
          [(⟨true, none, none, none⟩, ⟨"example.com:80"⟩)] ⟨0, 0⟩).1,
       (Tunnel.handleSSHChannels ⟨false⟩
          [(⟨true, none, none, none⟩, ⟨"example.com:80"⟩)] ⟨0, 0⟩).2) :=
  C6_socks_rejected ⟨false⟩ ⟨true, none, none, none⟩ ⟨"socks"⟩ ⟨0, 0⟩
    [(⟨true, none, none, none⟩, ⟨"example.com:80"⟩)] (by decide) (by decide)

theorem handleSSHChannels_length (t : Tunnel) :
    ∀ (l : List (ChanEnv × Channel)) (stats : ConnStats),
      (Tunnel.handleSSHChannels t l stats).1.length = l.length := by
  intro l
  induction l with
  | nil => intro stats; rfl
  | cons p rest ih =>
    intro stats
    cases p with
    | mk env ch => simp [Tunnel.handleSSHChannels, ih]

theorem handleSSHChannel_statsAfter_openCount (t : Tunnel) (env : ChanEnv)
    (ch : Channel) (stats : ConnStats) :
    (Tunnel.handleSSHChannel t env ch stats).statsAfter.openCount =
      stats.openCount := by
  unfold Tunnel.handleSSHChannel
  dsimp only
  split
  · rfl
  · split
    · rfl
    · simp [ConnStats.New, ConnStats.Open, ConnStats.Close]

theorem handleSSHChannels_openCount (t : Tunnel) :
    ∀ (l : List (ChanEnv × Channel)) (s0 : ConnStats),
      (Tunnel.handleSSHChannels t l s0).2.openCount = s0.openCount := by
  intro l
  induction l with
  | nil => intro s0; rfl
  | cons p rest ih =>
    intro s0
    cases p with
    | mk env ch =>
      simp [Tunnel.handleSSHChannels, ih, handleSSHChannel_statsAfter_openCount]

/-- C7 counterexample: a dial failure whose error text is "EOF" satisfies
`strings.HasSuffix(err.Error(), "EOF")`, so `handleSSHChannel` does not put the
error in the close log line — the claim that the error is logged on every dial
failure is false at this input. -/
theorem C7_counterexample :
    (Tunnel.handleSSHChannel ⟨false⟩ ⟨true, none, none, some "EOF"⟩
      ⟨"example.com:80"⟩ ⟨0, 0⟩).dialTarget = some "example.com:80" ∧
    (Tunnel.handleSSHChannel ⟨false⟩ ⟨true, none, none, some "EOF"⟩
      ⟨"example.com:80"⟩ ⟨0, 0⟩).handlerErr = some "EOF" ∧
    (Tunnel.handleSSHChannel ⟨false⟩ ⟨true, none, none, some "EOF"⟩
      ⟨"example.com:80"⟩ ⟨0, 0⟩).errorLogged = false := by
  refine ⟨rfl, rfl, ?_⟩
  rfl

/-- C7 (amended): a channel whose tag is neither `socks` nor `udp` is accepted
and TCP-dialed to the tag; on dial failure the accepted stream is closed, the
dispatcher still handles every other channel of the session, and the error is
put in the close log line unless its text ends in "EOF". -/
theorem C7_tcp_dial_failure_local (t : Tunnel) (env : ChanEnv) (ch : Channel)
    (stats : ConnStats) (rest : List (ChanEnv × Channel)) (e : String)
    (hsocks : ch.extraData ≠ "socks") (hudp : ch.extraData ≠ "udp")
    (hacc : env.acceptOk = true) (hdial : env.dialErr = some e) :
    (Tunnel.handleSSHChannel t env ch stats).accepted = true ∧
    (Tunnel.handleSSHChannel t env ch stats).dialTarget = some ch.extraData ∧
    (Tunnel.handleSSHChannel t env ch stats).handlerErr = some e ∧
    (Tunnel.handleSSHChannel t env ch stats).streamClosed = true ∧
    (Tunnel.handleSSHChannel t env ch stats).errorLogged = !hasSuffixEOF e ∧
    (Tunnel.handleSSHChannels t ((env, ch) :: rest) stats).1.length =
      rest.length + 1 := by
  have hs : (ch.extraData == "socks") = false := by
    simpa using hsocks
  have hu : (ch.extraData == "udp") = false := by
    simpa using hudp
  refine ⟨?_, ?_, ?_, ?_, ?_, ?_⟩ <;>
    simp [Tunnel.handleSSHChannel, Tunnel.handleTCP, hs, hu, hacc, hdial,
      handleSSHChannels_length]

/-- Witness for C7 (amended) at a concrete dial failure `connection refused`
on tag `internal:22`. -/
theorem C7_witness :
    (Tunnel.handleSSHChannel ⟨false⟩ ⟨true, none, none, some "connection refused"⟩
      ⟨"internal:22"⟩ ⟨0, 0⟩).accepted = true ∧
    (Tunnel.handleSSHChannel ⟨false⟩ ⟨true, none, none, some "connection refused"⟩
      ⟨"internal:22"⟩ ⟨0, 0⟩).dialTarget = some "internal:22" ∧
    (Tunnel.handleSSHChannel ⟨false⟩ ⟨true, none, none, some "connection refused"⟩
      ⟨"internal:22"⟩ ⟨0, 0⟩).streamClosed = true ∧
    (Tunnel.handleSSHChannel ⟨false⟩ ⟨true, none, none, some "connection refused"⟩
      ⟨"internal:22"⟩ ⟨0, 0⟩).errorLogged = true := by
  have h := C7_tcp_dial_failure_local ⟨false⟩
    ⟨true, none, none, some "connection refused"⟩ ⟨"internal:22"⟩ ⟨0, 0⟩ []
    "connection refused" (by decide) (by decide) rfl rfl
  exact ⟨h.1, h.2.1, h.2.2.2.1, h.2.2.2.2.1.trans (by decide)⟩

/-- C8: for every channel the dispatcher accepts, the total and open counters
are incremented before the protocol handler runs, the open counter is
decremented exactly once after the handler returns whatever the handler error
was, and across any sequence of handled channels the open count is restored to
its starting value (so between handlings it equals the number of running
handlers, namely zero). -/
theorem C8_counters (t : Tunnel) (env : ChanEnv) (ch : Channel)
    (stats : ConnStats)
    (hacc : (Tunnel.handleSSHChannel t env ch stats).accepted = true) :
    (Tunnel.handleSSHChannel t env ch stats).statsAtHandler =
      some ⟨stats.openCount + 1, stats.total + 1⟩ ∧
    (Tunnel.handleSSHChannel t env ch stats).closeDecrements = 1 ∧
    (Tunnel.handleSSHChannel t env ch stats).statsAfter =
      ⟨stats.openCount, stats.total + 1⟩ ∧
    ∀ (l : List (ChanEnv × Channel)) (s0 : ConnStats),
      (Tunnel.handleSSHChannels t l s0).2.openCount = s0.openCount := by
  unfold Tunnel.handleSSHChannel at hacc ⊢
  dsimp only at hacc ⊢
  by_cases h1 : ((ch.extraData == "socks") && !t.socksConfigured) = true
  · rw [if_pos h1] at hacc
    cases hacc
  · rw [if_neg h1] at hacc ⊢
    by_cases h2 : (!env.acceptOk) = true
    · rw [if_pos h2] at hacc
      cases hacc
    · rw [if_neg h2]
      refine ⟨?_, ?_, ?_, handleSSHChannels_openCount t⟩ <;>
        simp [ConnStats.New, ConnStats.Open, ConnStats.Close]

/-- Witness for C8 at a concrete accepted channel whose handler fails:
starting from counters (open 0, total 5), the handler sees (1, 6) and the
counters end at (0, 6). -/
theorem C8_witness :
    (Tunnel.handleSSHChannel ⟨false⟩ ⟨true, none, none, some "connection refused"⟩
      ⟨"example.com:80"⟩ ⟨0, 5⟩).statsAtHandler = some ⟨1, 6⟩ ∧
    (Tunnel.handleSSHChannel ⟨false⟩ ⟨true, none, none, some "connection refused"⟩
      ⟨"example.com:80"⟩ ⟨0, 5⟩).closeDecrements = 1 ∧
    (Tunnel.handleSSHChannel ⟨false⟩ ⟨true, none, none, some "connection refused"⟩
      ⟨"example.com:80"⟩ ⟨0, 5⟩).statsAfter = ⟨0, 6⟩ := by
  have h := C8_counters ⟨false⟩ ⟨true, none, none, some "connection refused"⟩
    ⟨"example.com:80"⟩ ⟨0, 5⟩ (by decide)
  exact ⟨h.1, h.2.1, h.2.2.1⟩

/-- C9: when the current-connection accessor returns nil, `pipeRemote` closes
and drops the local connection without attempting to open a channel and
without piping; only the per-proxy connection counter advances. -/
theorem C9_pipe_remote_nil_conn (count : Nat) :
    pipeRemote count none =
      { srcClosed := true, channelOpenAttempted := false, piped := false,
        countAfter := count + 1 } := by
  rfl

/-- C10: with no user table configured, the sessions map is never mutated or
consulted: `authUser` allows without inserting, `handleWS` leaves the map
unchanged and behaves identically for any two session maps, and any sequence
of authentications and sessions leaves an empty map empty. -/
theorem C10_no_users_frame (pmatch : String → String → Bool) :
    (∀ (sessions : List (String × User)) (identity sid pass : String),
      authUser [] sessions identity sid pass = (sessions, none)) ∧
    (∀ (sessions : List (String × User)) (sid : String) (req : Request),
      (handleWS pmatch [] sessions sid req).sessionsAfter = sessions) ∧
    (∀ (s1 s2 : List (String × User)) (sid : String) (req : Request),
      (handleWS pmatch [] s1 sid req).replies =
        (handleWS pmatch [] s2 sid req).replies ∧
      (handleWS pmatch [] s1 sid req).closed =
        (handleWS pmatch [] s2 sid req).closed ∧
      (handleWS pmatch [] s1 sid req).dispatched =
        (handleWS pmatch [] s2 sid req).dispatched) ∧
    (∀ ops : List ServerOp, runOps pmatch [] [] ops = []) := by
  have hauth : ∀ (sessions : List (String × User)) (identity sid pass : String),
      authUser [] sessions identity sid pass = (sessions, none) := by
    intro sessions identity sid pass
    rfl
  have hws : ∀ (sessions : List (String × User)) (sid : String) (req : Request),
      (handleWS pmatch [] sessions sid req).sessionsAfter = sessions := by
    intro sessions sid req
    rw [handleWS_no_users]
    split
    · rfl
    · split <;> rfl
  have hinv : ∀ (s1 s2 : List (String × User)) (sid : String) (req : Request),
      (handleWS pmatch [] s1 sid req).replies =
        (handleWS pmatch [] s2 sid req).replies ∧
      (handleWS pmatch [] s1 sid req).closed =
        (handleWS pmatch [] s2 sid req).closed ∧
      (handleWS pmatch [] s1 sid req).dispatched =
        (handleWS pmatch [] s2 sid req).dispatched := by
    intro s1 s2 sid req
    rw [handleWS_no_users, handleWS_no_users]
    split
    · exact ⟨rfl, rfl, rfl⟩
    · split <;> exact ⟨rfl, rfl, rfl⟩
  have hrun : ∀ (ops : List ServerOp) (sessions : List (String × User)),
      sessions = [] → runOps pmatch [] sessions ops = [] := by
    intro ops
    induction ops with
    | nil =>
      intro s hs
      simpa [runOps] using hs
    | cons op ops ih =>
      intro s hs
      subst hs
      show runOps pmatch [] (applyOp pmatch [] [] op) ops = []
      have happ : applyOp pmatch [] [] op = [] := by
        cases op with
        | auth identity sid pass =>
          show (authUser [] [] identity sid pass).1 = []
          rw [hauth]
        | ws sid req => exact hws [] sid req
      rw [happ]
      exact ih [] rfl
  exact ⟨hauth, hws, hinv, fun ops => hrun ops [] rfl⟩

end Chisel
